import Mathlib

/-!
Shallow embedding of the insight-generation core of the `insighto` repository
(`src/Insight/insight_engine.py`).

Modelling conventions:
* A pandas `DataFrame` becomes an ordered association list of named columns.
  A column is either numeric (list of `Option ℚ`, `none` being the missing
  marker `NaN`) or textual (list of `Option String`).
* Machine floating point is modelled by exact rationals `ℚ`.  `NaN` appearing
  as the result of an aggregate over zero present values is modelled by
  `Option ℚ` with `none` for `NaN`; comparisons against `none` are `false`,
  exactly as every comparison against `NaN` is false in IEEE arithmetic.
* Pearson correlation coefficients and standardized scores involve a square
  root, which does not exist inside `ℚ`.  Both are therefore represented by
  their squares (`vsq` = |r|², `zsq` = z²), which is faithful for every use
  the source makes of them: the filter `|r| ≥ min_corr` becomes
  `absGe vsq min_corr` (equivalent for the nonnegative thresholds of the
  contract), and sorting descending by `|r|` is sorting descending by `vsq`.
* Python exceptions are modelled with `Except String`: `astype(float)` on a
  textual column that holds a string not parseable as a float raises
  `ValueError`, which the embedding returns as `.error`.
-/

set_option maxHeartbeats 1000000

/-- A numeric column: pandas float series, `none` is `NaN` (missing). -/
abbrev NumCol := List (Option ℚ)

/-- Column payload: pandas dtype distinction used by `select_dtypes`. -/
inductive ColData
  | numeric (vals : List (Option ℚ))
  | text (vals : List (Option String))
deriving DecidableEq

/-- A dataset: ordered, named columns (`df.columns` order). -/
structure DataFrame where
  cols : List (String × ColData)
deriving DecidableEq

deriving instance DecidableEq for Except

/-- The numeric sub-frame, in column order: `df.select_dtypes(include=[np.number])`. -/
def selectNumeric (df : DataFrame) : List (String × NumCol) :=
  df.cols.filterMap (fun c =>
    match c.2 with
    | ColData.numeric vs => some (c.1, vs)
    | ColData.text _ => none)

/-- The values that are actually present (pandas aggregates skip `NaN`). -/
def presentVals (vs : NumCol) : List ℚ :=
  vs.filterMap id

/-- `series.sum()`: pandas sums the present values; an empty or all-missing
series sums to `0.0`. -/
def colSum (vs : NumCol) : ℚ :=
  (presentVals vs).sum

/-- `series.mean()`: mean of present values, `NaN` (here `none`) when no value
is present. -/
def colMean (vs : NumCol) : Option ℚ :=
  let p := presentVals vs
  if p.length = 0 then none else some (p.sum / (p.length : ℚ))

/-- `series.min()` over present values (`NaN` when none present). -/
def colMin (vs : NumCol) : Option ℚ :=
  (presentVals vs).min?

/-- `series.max()` over present values (`NaN` when none present). -/
def colMax (vs : NumCol) : Option ℚ :=
  (presentVals vs).max?

/-- `series.std()` squared: the sample variance (`ddof = 1`) of the present
values; `none` models the `NaN` pandas returns for fewer than two present
values.  The source only uses `sigma` through `sigma == 0`, `math.isnan(sigma)`
and `z = (vals - mu)/sigma`, all of which factor through the variance. -/
def colVar (vs : NumCol) : Option ℚ :=
  let p := presentVals vs
  let n := p.length
  if n < 2 then none
  else
    let μ := p.sum / (n : ℚ)
    some ((p.map (fun x => (x - μ) ^ 2)).sum / ((n : ℚ) - 1))

/-- Python `str.lower()`, character-wise. -/
def strLower (s : String) : String :=
  String.mk (s.toList.map Char.toLower)

/-- Strip surrounding whitespace, as Python `float(...)` does on its input. -/
def trimWs (cs : List Char) : List Char :=
  ((cs.dropWhile Char.isWhitespace).reverse.dropWhile Char.isWhitespace).reverse

/-- Digit string to value; `none` when a non-digit occurs. -/
def decDigits (cs : List Char) : Option ℕ :=
  cs.foldlM (fun acc c => if c.isDigit then some (acc * 10 + (c.toNat - '0'.toNat)) else none) 0

/-- Unsigned decimal literal as accepted by Python `float(...)`: digits with an
optional fractional part, at least one digit overall. -/
def decCore (ds : List Char) : Option ℚ :=
  match ds.splitOn '.' with
  | [a] =>
    if a.isEmpty then none
    else (decDigits a).map (fun v => (v : ℚ))
  | [a, b] =>
    if a.isEmpty && b.isEmpty then none
    else
      match decDigits a, decDigits b with
      | some va, some vb => some ((va : ℚ) + (vb : ℚ) / ((10 : ℚ) ^ b.length))
      | _, _ => none
  | _ => none

/-- Python `float(s)` on a string: strip surrounding whitespace, optional sign,
then a decimal literal; `none` models the `ValueError` raised otherwise. -/
def strToRat (s : String) : Option ℚ :=
  match trimWs s.toList with
  | '-' :: rest => (decCore rest).map (fun q => -q)
  | '+' :: rest => decCore rest
  | rest => decCore rest

/-- `df[value_col].astype(float)`: a numeric column is unchanged; a textual
column converts element-wise, raising (`.error`) at the first string that does
not parse as a float, with missing markers becoming `NaN`. -/
def astypeFloat : ColData → Except String NumCol
  | ColData.numeric vs => Except.ok vs
  | ColData.text vs =>
    vs.mapM (fun o =>
      match o with
      | none => Except.ok none
      | some s =>
        match strToRat s with
        | some q => Except.ok (some q)
        | none => Except.error ("could not convert string to float: " ++ s))

/-- `absGe sq t` decides `x ≥ t` where `x = √sq ≥ 0` is represented by its
square `sq`: for `t ≤ 0` every nonnegative `x` qualifies, otherwise `x ≥ t`
iff `t² ≤ sq`.  Used for the source comparisons `abs(z) >= z_thresh` and
`abs(val) >= min_corr`, whose left-hand sides are nonnegative. -/
def absGe (sq t : ℚ) : Bool :=
  if t ≤ 0 then true else decide (t ^ 2 ≤ sq)

/-- One flagged data point: positional row index, raw value, and the squared
standardized score (`zsq` = z², see the header comment). -/
structure AnomalyRecord where
  index : ℕ
  value : ℚ
  zsq : ℚ
deriving DecidableEq

/-- `detect_anomalies_zscore(df, value_col, z_thresh=3.0)` from the source:
absent column → `[]`; convert to float (may raise on textual data); `sigma`
zero or `NaN` → `[]`; otherwise flag every present value with `|z| ≥ z_thresh`
(missing values give `z = NaN`, excluded by the comparison). -/
def detect_anomalies_zscore (df : DataFrame) (value_col : String) (z_thresh : ℚ) :
    Except String (List AnomalyRecord) :=
  match df.cols.lookup value_col with
  | none => Except.ok []
  | some cd =>
    match astypeFloat cd with
    | Except.error e => Except.error e
    | Except.ok vals =>
      match colMean vals, colVar vals with
      | some μ, some v =>
        if v = 0 then Except.ok []
        else
          Except.ok (vals.enum.filterMap (fun p =>
            match p.2 with
            | none => none
            | some x =>
              let zsq := (x - μ) ^ 2 / v
              if absGe zsq z_thresh then some ⟨p.1, x, zsq⟩ else none))
      | _, _ => Except.ok []

/-- The entry of the pairwise absolute correlation matrix
`df.select_dtypes(...).corr().abs()` for two columns, squared (`|r|²`), with
`none` for the `NaN` pandas produces when fewer than two pairwise-complete
observations exist or either column has zero variance over them. -/
def pearsonAbsSq (x y : NumCol) : Option ℚ :=
  let obs := (x.zip y).filterMap (fun p =>
    match p.1, p.2 with
    | some a, some b => some (a, b)
    | _, _ => none)
  let n := obs.length
  if n < 2 then none
  else
    let mx := (obs.map Prod.fst).sum / (n : ℚ)
    let my := (obs.map Prod.snd).sum / (n : ℚ)
    let sxx := (obs.map (fun p => (p.1 - mx) ^ 2)).sum
    let syy := (obs.map (fun p => (p.2 - my) ^ 2)).sum
    let sxy := (obs.map (fun p => (p.1 - mx) * (p.2 - my))).sum
    if sxx = 0 ∨ syy = 0 then none
    else some (sxy ^ 2 / (sxx * syy))

/-- `compute_correlations(df, min_corr=0.3)` from the source: fewer than two
numeric columns → `[]`; iterate the strict upper triangle (`j > i`) of the
absolute correlation matrix, keep entries with `|r| ≥ min_corr` (a `NaN` entry
fails the comparison and is dropped), and stably sort descending by `|r|`
(represented by `|r|²`, see the header comment).  Python `sorted` is a stable
sort, and the stable sort by a key is unique as a function, so it is embedded
as the structurally recursive stable `List.insertionSort`. -/
def compute_correlations (df : DataFrame) (min_corr : ℚ) :
    List (String × String × ℚ) :=
  let numeric := selectNumeric df
  if numeric.length < 2 then []
  else
    let pairs := numeric.enum.flatMap (fun pi =>
      numeric.enum.filterMap (fun pj =>
        if pj.1 ≤ pi.1 then none
        else
          match pearsonAbsSq pi.2.2 pj.2.2 with
          | none => none
          | some vsq =>
            if absGe vsq min_corr then some (pi.2.1, pj.2.1, vsq) else none))
    List.insertionSort (fun p q => q.2.2 ≤ p.2.2) pairs

/-- The source's `exclude_keywords` list in `basic_kpi_insights`. -/
def exclude_keywords : List String :=
  ["id", "code", "zip", "key", "number"]

/-- Whether the character list `n` occurs contiguously at the start of `h`. -/
def startsWithChars : List Char → List Char → Bool
  | _, [] => true
  | [], _ :: _ => false
  | a :: as, b :: bs => a == b && startsWithChars as bs

/-- Whether the character list `n` occurs contiguously anywhere in `h`. -/
def hasInfixChars : List Char → List Char → Bool
  | [], n => n.isEmpty
  | h :: t, n => startsWithChars (h :: t) n || hasInfixChars t n

/-- Python's `sub in s` substring test. -/
def containsSub (s sub : String) : Bool :=
  hasInfixChars s.toList sub.toList

/-- The source's column filter: `any(ex_kw.lower() in col.lower() for ex_kw in
exclude_keywords)`. -/
def isExcluded (col : String) : Bool :=
  exclude_keywords.any (fun kw => containsSub (strLower col) (strLower kw))

/-- One line of output, kept structured; `render` below produces the exact
text the source's f-strings build.  Statistics that can be `NaN` are carried
as `Option ℚ` fields (`none` renders as `nan`, as Python formats a float
`NaN`). -/
inductive Insight
  | kpiVerbose (col : String) (avg : Option ℚ) (total : ℚ) (minv maxv : Option ℚ)
  | kpiModerate (col : String) (avg minv maxv : Option ℚ)
  | kpiStable (col : String) (avg : Option ℚ)
  | kpiFallback
  | corrLine (c1 c2 : String) (vsq : ℚ)
  | anomalyLine (col : String) (count : ℕ)
  | summaryLine (dashboard : String)
  | llmFailed (err : String)
  | rewritten (s : String)
deriving DecidableEq

/-- The column a KPI line speaks about, if it is a per-column KPI line. -/
def Insight.kpiCol : Insight → Option String
  | Insight.kpiVerbose c _ _ _ _ => some c
  | Insight.kpiModerate c _ _ _ => some c
  | Insight.kpiStable c _ => some c
  | _ => none

/-- Whether an undefined (`NaN`) statistic is embedded in the line: the model
of "the rendered text contains a `nan` artifact". -/
def Insight.hasNaN : Insight → Bool
  | Insight.kpiVerbose _ avg _ minv maxv => avg.isNone || minv.isNone || maxv.isNone
  | Insight.kpiModerate _ avg minv maxv => avg.isNone || minv.isNone || maxv.isNone
  | Insight.kpiStable _ avg => avg.isNone
  | _ => false

/-- The significance heuristic `spread_ratio = (maxv - minv) / (avg + 1e-6)`
followed by `spread_ratio > 0.1`, under IEEE semantics: any `NaN` operand
makes the comparison false; a zero denominator gives `+inf` (comparison true)
when the numerator is positive and `NaN` (false) when it is zero. -/
def isSignificant (avg minv maxv : Option ℚ) : Bool :=
  match maxv, minv, avg with
  | some mx, some mn, some a =>
    let den := a + 1 / 1000000
    if den = 0 then decide (0 < mx - mn)
    else decide ((mx - mn) / den > 1 / 10)
  | _, _, _ => false

/-- The per-column body of the loop in `basic_kpi_insights`: compute the four
aggregates and choose among the three message templates. -/
def kpiMessage (col : String) (vs : NumCol) : Insight :=
  let total := colSum vs
  let avg := colMean vs
  let minv := colMin vs
  let maxv := colMax vs
  let sig := isSignificant avg minv maxv
  let avgBig : Bool :=
    match avg with
    | some a => decide (a > 1000)
    | none => false
  if sig && avgBig then Insight.kpiVerbose col avg total minv maxv
  else if sig then Insight.kpiModerate col avg minv maxv
  else Insight.kpiStable col avg

/-- `basic_kpi_insights(df)` from the source: keep numeric columns whose names
avoid the excluded keywords, one message per kept column, and the fallback
line when nothing was produced. -/
def basic_kpi_insights (df : DataFrame) : List Insight :=
  let numeric := selectNumeric df
  let filtered := numeric.filter (fun c => !isExcluded c.1)
  let insights := filtered.map (fun c => kpiMessage c.1 c.2)
  if insights.isEmpty then [Insight.kpiFallback] else insights

/-- Floor of a rational, computed directly on its fraction. -/
def qfloor (m : ℚ) : ℤ :=
  Int.fdiv m.num (m.den : ℤ)

/-- Round to the nearest integer, halves to even, as Python float formatting
rounds. -/
def roundHalfEven (m : ℚ) : ℤ :=
  let n := qfloor m
  let f := m - (n : ℚ)
  if f < 1 / 2 then n
  else if 1 / 2 < f then n + 1
  else if n % 2 = 0 then n else n + 1

/-- Left-pad a digit string with zeros to length `d`. -/
def padZeros (s : String) (d : ℕ) : String :=
  String.mk (List.replicate (d - s.length) '0') ++ s

/-- Insert thousands separators into a digit string (reversed-chunk grouping). -/
def groupRev : List Char → List Char
  | a :: b :: c :: d :: rest => a :: b :: c :: ',' :: groupRev (d :: rest)
  | l => l

/-- Thousands-grouped rendering of a natural: `1234567` to `1,234,567`. -/
def groupDigits (s : String) : String :=
  String.mk (groupRev s.toList.reverse).reverse

/-- Python `format(q, ',.df')` respectively `'.df'` on a finite value: sign,
thousands-grouped integer digits when `grouped`, and `d` fractional digits
after round-half-even scaling. -/
def fmtFixed (q : ℚ) (d : ℕ) (grouped : Bool) : String :=
  let neg := q < 0
  let a := if neg then -q else q
  let n := (roundHalfEven (a * ((10 : ℚ) ^ d))).toNat
  let ip := n / 10 ^ d
  let fp := n % 10 ^ d
  let ipStr := if grouped then groupDigits (toString ip) else toString ip
  let s := if d = 0 then ipStr else ipStr ++ "." ++ padZeros (toString fp) d
  if neg then "-" ++ s else s

/-- Formatting of a possibly-`NaN` statistic: Python renders a float `NaN`
as `nan` under any fixed-point format. -/
def fmtOpt (o : Option ℚ) (d : ℕ) (grouped : Bool) : String :=
  match o with
  | none => "nan"
  | some q => fmtFixed q d grouped

/-- `f"{v:.2f}"` for the correlation coefficient `v = √vsq`: the integer
nearest to `100·√vsq` (halves upward), printed with two decimals.  Computed
exactly: `Nat.sqrt (40000·p·q)` is `⌊200·√(p·q)⌋` for `vsq = p/q`. -/
def fmtCorr (vsq : ℚ) : String :=
  let p := vsq.num.toNat
  let q := vsq.den
  let s := Nat.sqrt (40000 * p * q)
  let m := (s + q) / (2 * q)
  toString (m / 100) ++ "." ++ padZeros (toString (m % 100)) 2

/-- One step of Python `str.title()` driven by whether the previous character
was alphabetic. -/
def titleChars : Bool → List Char → List Char
  | _, [] => []
  | prevAlpha, c :: rest =>
    let c2 := if c.isAlpha then (if prevAlpha then c.toLower else c.toUpper) else c
    c2 :: titleChars c.isAlpha rest

/-- The source's display form `col.replace('_', ' ').title()`. -/
def humanize (col : String) : String :=
  String.mk (titleChars false (col.toList.map (fun c => if c = '_' then ' ' else c)))

/-- The exact text of each insight line, following the source's f-strings. -/
def render : Insight → String
  | Insight.kpiVerbose col avg total minv maxv =>
    "**" ++ humanize col ++ "** averages around " ++ fmtOpt avg 2 true ++
      ", totaling " ++ fmtFixed total 0 true ++ ". Values range between " ++
      fmtOpt minv 2 true ++ " and " ++ fmtOpt maxv 2 true ++
      ", showing significant spread."
  | Insight.kpiModerate col avg minv maxv =>
    "**" ++ humanize col ++ "** shows moderate variation, averaging " ++
      fmtOpt avg 2 true ++ " (min " ++ fmtOpt minv 2 true ++ ", max " ++
      fmtOpt maxv 2 true ++ ")."
  | Insight.kpiStable col avg =>
    "**" ++ humanize col ++ "** remains relatively stable, averaging " ++
      fmtOpt avg 2 true ++ " with limited variability."
  | Insight.kpiFallback =>
    "No business-relevant numeric columns found for KPI analysis. " ++
      "ID-like or static columns were excluded."
  | Insight.corrLine c1 c2 vsq =>
    "A notable correlation (**r = " ++ fmtCorr vsq ++ "**) exists between **" ++
      c1 ++ "** and **" ++ c2 ++
      "**, indicating they move closely together — potentially useful for predictive modeling."
  | Insight.anomalyLine col n =>
    "**" ++ humanize col ++ "** shows " ++ toString n ++
      " unusual data points (anomalies), which may represent exceptional cases, outliers, or potential data errors."
  | Insight.summaryLine dashboard =>
    "📊 These insights summarize " ++ dashboard ++
      ", combining quantitative patterns and potential risk signals."
  | Insight.llmFailed e => "⚠️ LLM enhancement failed: " ++ e
  | Insight.rewritten s => s

/-- The fixed instruction preamble of the rewrite prompt. -/
def llmPreamble : String :=
  "You are a data storytelling expert. Rewrite these raw insights into an executive-friendly narrative. " ++
    "Keep it data-driven, concise, and descriptive, reflecting relationships and dashboard findings:\n\n"

/-- The single prompt handed to the rewrite callback: preamble followed by all
insight lines joined by newlines. -/
def mkPrompt (insights : List Insight) : String :=
  llmPreamble ++ String.intercalate "\n" (insights.map render)

/-- The default `min_corr=0.3` of `compute_correlations`. -/
def default_min_corr : ℚ := 3 / 10

/-- The default `z_thresh=3.0` of `detect_anomalies_zscore`. -/
def default_z_thresh : ℚ := 3

/-- The anomaly loop of `generate_dashboard_insights`: for every numeric
column (in dataset order) run the detector at the default threshold and
append one line when at least one record is returned; an exception from the
detector propagates. -/
def anomalySection (df : DataFrame) : Except String (List Insight) :=
  (selectNumeric df).foldlM (fun acc c => do
    let anoms ← detect_anomalies_zscore df c.1 default_z_thresh
    pure (acc ++ (if anoms.length > 0 then [Insight.anomalyLine c.1 anoms.length] else []))) []

/-- `generate_dashboard_insights` from the source: KPI lines, then (when
`include_correlations`) one line per top-3 correlation pair at the default
threshold, then the anomaly lines at the default threshold, then the closing
summary line; finally, when `use_llm` and a client are given, one rewrite
attempt whose success replaces everything by a single line and whose failure
appends one diagnostic line. -/
def generate_dashboard_insights (df : DataFrame) (dashboard_name : String)
    (include_correlations : Bool) (use_llm : Bool)
    (llm_client : Option (String → Except String String)) :
    Except String (List Insight) :=
  let kpi := basic_kpi_insights df
  let corrLines :=
    if include_correlations then
      ((compute_correlations df default_min_corr).take 3).map
        (fun p => Insight.corrLine p.1 p.2.1 p.2.2)
    else []
  match anomalySection df with
  | Except.error e => Except.error e
  | Except.ok anomLines =>
    let insights := kpi ++ corrLines ++ anomLines ++ [Insight.summaryLine dashboard_name]
    if use_llm then
      match llm_client with
      | some client =>
        match client (mkPrompt insights) with
        | Except.ok summary => Except.ok [Insight.rewritten summary]
        | Except.error e => Except.ok (insights ++ [Insight.llmFailed e])
      | none => Except.ok insights
    else Except.ok insights

/-- State-threaded form of the KPI summarizer: the dataset is explicit state,
and the source performs only read accesses on it (column selection, indexing,
aggregation — no in-place pandas operation occurs anywhere in the module), so
the body consists of a read followed by pure computation. -/
def basic_kpi_insightsS : StateM DataFrame (List Insight) := do
  let df ← get
  pure (basic_kpi_insights df)

/-- State-threaded form of the correlation finder (read-only, see
`basic_kpi_insightsS`). -/
def compute_correlationsS (min_corr : ℚ) : StateM DataFrame (List (String × String × ℚ)) := do
  let df ← get
  pure (compute_correlations df min_corr)

/-- State-threaded form of the anomaly detector (read-only, see
`basic_kpi_insightsS`). -/
def detect_anomalies_zscoreS (value_col : String) (z_thresh : ℚ) :
    StateM DataFrame (Except String (List AnomalyRecord)) := do
  let df ← get
  pure (detect_anomalies_zscore df value_col z_thresh)

/-- State-threaded form of the composer, reading the dataset at each stage of
the pipeline exactly as the source touches `df` across its statements. -/
def generate_dashboard_insightsS (dashboard_name : String)
    (include_correlations use_llm : Bool)
    (llm_client : Option (String → Except String String)) :
    StateM DataFrame (Except String (List Insight)) := do
  let kpi ← basic_kpi_insightsS
  let corrLines ←
    if include_correlations then do
      let corrs ← compute_correlationsS default_min_corr
      pure ((corrs.take 3).map (fun p => Insight.corrLine p.1 p.2.1 p.2.2))
    else pure []
  let df ← get
  match anomalySection df with
  | Except.error e => pure (Except.error e)
  | Except.ok anomLines =>
    let insights := kpi ++ corrLines ++ anomLines ++ [Insight.summaryLine dashboard_name]
    if use_llm then
      match llm_client with
      | some client =>
        pure (match client (mkPrompt insights) with
          | Except.ok summary => Except.ok [Insight.rewritten summary]
          | Except.error e => Except.ok (insights ++ [Insight.llmFailed e]))
      | none => pure (Except.ok insights)
    else pure (Except.ok insights)

/-- The anomaly loop with the detector threshold exposed as a parameter;
`anomalySection df` is this loop at the default threshold. -/
def anomalySection_param (df : DataFrame) (z_thresh : ℚ) : Except String (List Insight) :=
  (selectNumeric df).foldlM (fun acc c => do
    let anoms ← detect_anomalies_zscore df c.1 z_thresh
    pure (acc ++ (if anoms.length > 0 then [Insight.anomalyLine c.1 anoms.length] else []))) []

/-- Modelled from the spec: the Composer contract of the specification,
`generate_insights(dataset, dashboard_name, include_correlations=true,
min_corr=0.3, z_threshold=3.0, rewrite_callback=None)`, which exposes the two
analysis thresholds as parameters of the interface.  The pipeline is the one
of the source; only `min_corr` and `z_thresh` are threaded instead of fixed.
Used for the refinement claim that the source composer equals this contract
instantiated at the defaults. -/
def generate_insights_param (df : DataFrame) (dashboard_name : String)
    (include_correlations : Bool) (min_corr z_thresh : ℚ) (use_llm : Bool)
    (llm_client : Option (String → Except String String)) :
    Except String (List Insight) :=
  let kpi := basic_kpi_insights df
  let corrLines :=
    if include_correlations then
      ((compute_correlations df min_corr).take 3).map
        (fun p => Insight.corrLine p.1 p.2.1 p.2.2)
    else []
  match anomalySection_param df z_thresh with
  | Except.error e => Except.error e
  | Except.ok anomLines =>
    let insights := kpi ++ corrLines ++ anomLines ++ [Insight.summaryLine dashboard_name]
    if use_llm then
      match llm_client with
      | some client =>
        match client (mkPrompt insights) with
        | Except.ok summary => Except.ok [Insight.rewritten summary]
        | Except.error e => Except.ok (insights ++ [Insight.llmFailed e])
      | none => Except.ok insights
    else Except.ok insights

/-- The successful value of the anomaly loop (the loop cannot raise on a
dataset with distinct column names, proved below). -/
def anomalyLinesD (df : DataFrame) : List Insight :=
  match anomalySection df with
  | Except.ok l => l
  | Except.error _ => []

/-- The list the composer assembles in steps 1-4, before the optional rewrite. -/
def composerLines (df : DataFrame) (dashboard_name : String)
    (include_correlations : Bool) : List Insight :=
  basic_kpi_insights df ++
    (if include_correlations then
      ((compute_correlations df default_min_corr).take 3).map
        (fun p => Insight.corrLine p.1 p.2.1 p.2.2)
    else []) ++
    anomalyLinesD df ++ [Insight.summaryLine dashboard_name]

/-- Example: a numeric column whose values are all missing (`NaN`). -/
def exMiss : DataFrame := ⟨[("sales", ColData.numeric [none, none])]⟩

/-- Example: a textual column whose value cannot be parsed as a float. -/
def exText : DataFrame := ⟨[("name", ColData.text [some "abc"])]⟩

/-- Example: three pairwise perfectly-correlated numeric columns (every
correlation coefficient is exactly 1). -/
def exTie : DataFrame :=
  ⟨[("a", ColData.numeric [some 1, some 2]),
    ("b", ColData.numeric [some 1, some 2]),
    ("c", ColData.numeric [some 1, some 2])]⟩

/-- Example: two perfectly correlated numeric columns. -/
def exCorr : DataFrame :=
  ⟨[("x", ColData.numeric [some 1, some 2, some 3]),
    ("y", ColData.numeric [some 1, some 2, some 3])]⟩

/-- Example: a column whose value `4` sits at `|z| = 3/2` exactly
(mean 1, sample variance 4, deviation 3). -/
def exBoundary : DataFrame :=
  ⟨[("v", ColData.numeric [some 0, some 0, some 0, some 4])]⟩

/-- Example: a constant numeric column. -/
def exConst : DataFrame := ⟨[("steady", ColData.numeric [some 7, some 7, some 7])]⟩

/-- Example: a business column next to a highly variable `customer_id` column. -/
def exKpi : DataFrame :=
  ⟨[("revenue", ColData.numeric [some 1000, some 5000, some 9000]),
    ("customer_id", ColData.numeric [some 1, some 1000000])]⟩

/-- Example: a small ordinary dataset. -/
def exSmall : DataFrame := ⟨[("sales", ColData.numeric [some 1, some 2])]⟩

/-- Example: a dataset with no columns at all. -/
def exEmpty : DataFrame := ⟨[]⟩

section Proofs

attribute [local semireducible] Rat.add Rat.mul Rat.inv Rat.sub

/-- A column delivered by `selectNumeric` is named in the dataset. -/
lemma mem_selectNumeric_names (l : List (String × ColData)) (c : String) (vs : NumCol)
    (h : (c, vs) ∈ selectNumeric ⟨l⟩) : c ∈ l.map Prod.fst := by
  rcases List.mem_filterMap.mp h with ⟨a, ha, heq⟩
  rcases a with ⟨nm, cd⟩
  cases cd with
  | numeric v =>
    simp only [Option.some.injEq, Prod.mk.injEq] at heq
    exact List.mem_map.mpr ⟨(nm, ColData.numeric v), ha, heq.1⟩
  | text v => simp at heq

/-- With distinct column names, a column delivered by `selectNumeric` is the
one `df[col]` resolves to, and it is numeric. -/
lemma lookup_selectNumeric (l : List (String × ColData)) (c : String) (vs : NumCol)
    (hnd : (l.map Prod.fst).Nodup) (h : (c, vs) ∈ selectNumeric ⟨l⟩) :
    l.lookup c = some (ColData.numeric vs) := by
  induction l with
  | nil => simp [selectNumeric] at h
  | cons hd tl ih =>
    rcases hd with ⟨nm, cd⟩
    rw [List.map_cons, List.nodup_cons] at hnd
    cases cd with
    | numeric v =>
      rw [show selectNumeric ⟨(nm, ColData.numeric v) :: tl⟩ =
            (nm, v) :: selectNumeric ⟨tl⟩ from rfl] at h
      rcases List.mem_cons.mp h with heq | htl
      · simp only [Prod.mk.injEq] at heq
        rw [heq.1, heq.2]
        simp [List.lookup]
      · have hc : c ∈ tl.map Prod.fst := mem_selectNumeric_names tl c vs htl
        have hne : ¬ (c == nm) = true := by
          intro hb
          exact hnd.1 (by rwa [← eq_of_beq hb])
        rw [List.lookup, Bool.of_not_eq_true hne]
        exact ih hnd.2 htl
    | text v =>
      rw [show selectNumeric ⟨(nm, ColData.text v) :: tl⟩ =
            selectNumeric ⟨tl⟩ from rfl] at h
      have hc : c ∈ tl.map Prod.fst := mem_selectNumeric_names tl c vs h
      have hne : ¬ (c == nm) = true := by
        intro hb
        exact hnd.1 (by rwa [← eq_of_beq hb])
      rw [List.lookup, Bool.of_not_eq_true hne]
      exact ih hnd.2 h

/-- The detector cannot raise on a column that resolves to numeric data. -/
lemma detect_numeric_ok (df : DataFrame) (col : String) (vs : NumCol) (t : ℚ)
    (h : df.cols.lookup col = some (ColData.numeric vs)) :
    ∃ r, detect_anomalies_zscore df col t = Except.ok r := by
  unfold detect_anomalies_zscore
  rw [h]
  dsimp only [astypeFloat]
  rcases hm : colMean vs with _ | μ <;> rcases hv : colVar vs with _ | v
  · exact ⟨[], rfl⟩
  · exact ⟨[], rfl⟩
  · exact ⟨[], rfl⟩
  · by_cases hv0 : v = 0
    · exact ⟨[], by simp [hv0]⟩
    · exact ⟨_, by dsimp only; rw [if_neg hv0]⟩

/-- The anomaly loop succeeds as soon as every listed column's detector call
succeeds. -/
lemma anomaly_fold_ok (df : DataFrame) :
    ∀ (l : List (String × NumCol)) (acc : List Insight),
      (∀ c ∈ l, ∃ r, detect_anomalies_zscore df c.1 default_z_thresh = Except.ok r) →
      ∃ lines,
        (l.foldlM (fun acc c => do
          let anoms ← detect_anomalies_zscore df c.1 default_z_thresh
          pure (acc ++ (if anoms.length > 0 then [Insight.anomalyLine c.1 anoms.length] else [])))
          acc : Except String (List Insight)) = Except.ok lines := by
  intro l
  induction l with
  | nil => exact fun acc _ => ⟨acc, rfl⟩
  | cons c tl ih =>
    intro acc hok
    rcases hok c (List.mem_cons_self c tl) with ⟨r, hr⟩
    rw [List.foldlM_cons]
    rcases ih (acc ++ (if r.length > 0 then [Insight.anomalyLine c.1 r.length] else []))
        (fun d hd => hok d (List.mem_cons_of_mem c hd)) with ⟨lines, hl⟩
    refine ⟨lines, ?_⟩
    show (detect_anomalies_zscore df c.1 default_z_thresh >>= _) >>= _ = _
    rw [hr]
    simpa using hl

/-- With distinct column names the anomaly loop of the composer succeeds. -/
lemma anomalySection_eq_ok (df : DataFrame)
    (hnd : (df.cols.map Prod.fst).Nodup) :
    anomalySection df = Except.ok (anomalyLinesD df) := by
  have hok : ∀ c ∈ selectNumeric df, ∃ r,
      detect_anomalies_zscore df c.1 default_z_thresh = Except.ok r := by
    intro c hc
    rcases c with ⟨nm, vs⟩
    exact detect_numeric_ok df nm vs default_z_thresh
      (lookup_selectNumeric df.cols nm vs hnd hc)
  rcases anomaly_fold_ok df (selectNumeric df) [] hok with ⟨lines, hl⟩
  have : anomalySection df = Except.ok lines := hl
  rw [anomalyLinesD, this]

/-- Every message built by the KPI loop names the column it was built from. -/
lemma kpiCol_kpiMessage (c : String) (v : NumCol) :
    (kpiMessage c v).kpiCol = some c := by
  unfold kpiMessage
  dsimp only
  split
  · rfl
  · split <;> rfl

/-- A present absolute-correlation-square entry is nonnegative. -/
lemma pearsonAbsSq_nonneg (x y : NumCol) (v : ℚ)
    (h : pearsonAbsSq x y = some v) : 0 ≤ v := by
  unfold pearsonAbsSq at h
  dsimp only at h
  split at h
  · exact absurd h (by simp)
  · split at h
    · exact absurd h (by simp)
    · rename_i hne
      simp only [Option.some.injEq] at h
      subst h
      apply div_nonneg (sq_nonneg _)
      apply mul_nonneg
      · exact List.sum_nonneg (fun z hz => by
          rcases List.mem_map.mp hz with ⟨p, _, rfl⟩
          exact sq_nonneg _)
      · exact List.sum_nonneg (fun z hz => by
          rcases List.mem_map.mp hz with ⟨p, _, rfl⟩
          exact sq_nonneg _)

/-- A column whose present values are pairwise equal has sample variance
zero or undefined. -/
lemma const_colVar (vs : NumCol)
    (h : ∀ x ∈ presentVals vs, ∀ y ∈ presentVals vs, x = y) :
    colVar vs = none ∨ colVar vs = some 0 := by
  by_cases hn : (presentVals vs).length < 2
  · left
    simp [colVar, hn]
  · right
    have hp : presentVals vs ≠ [] := by
      intro h0
      rw [h0] at hn
      simp at hn
    have hc : ∀ x ∈ presentVals vs, x = (presentVals vs).head hp :=
      fun x hx => h x hx _ (List.head_mem hp)
    have hrep : presentVals vs =
        List.replicate (presentVals vs).length ((presentVals vs).head hp) :=
      List.eq_replicate_iff.mpr ⟨rfl, hc⟩
    have hnz : ((presentVals vs).length : ℚ) ≠ 0 := by
      have h0 : (presentVals vs).length ≠ 0 := by omega
      exact_mod_cast h0
    have hsum : (presentVals vs).sum =
        ((presentVals vs).length : ℚ) * ((presentVals vs).head hp) := by
      conv_lhs => rw [hrep]
      simp [List.sum_replicate, nsmul_eq_mul]
    unfold colVar
    dsimp only
    rw [if_neg hn]
    have hzero : ((presentVals vs).map
        (fun x => (x - (presentVals vs).sum / ((presentVals vs).length : ℚ)) ^ 2)).sum = 0 := by
      apply List.sum_eq_zero
      intro z hz
      rcases List.mem_map.mp hz with ⟨x, hx, rfl⟩
      rw [hsum, mul_div_cancel_left₀ _ hnz, hc x hx]
      ring
    rw [hzero, zero_div]

/-- Claim C1: the claim says statistics over a qualifying numeric column with
zero rows or all-missing values are guarded so that no output line embeds NaN
text.  The code does not guard them: on `exMiss` (numeric column `sales` whose
values are all missing) the significance test compares `NaN` (false, so the
"relatively stable" branch is taken) and the emitted line embeds the undefined
average — its rendered text contains `nan` — and the composer returns it. -/
theorem kpi_all_missing_column_emits_nan_line :
    basic_kpi_insights exMiss = [Insight.kpiStable "sales" none] ∧
    (Insight.kpiStable "sales" none).hasNaN = true ∧
    containsSub (render (Insight.kpiStable "sales" none)) "nan" = true ∧
    generate_dashboard_insights exMiss "Financial Dashboard" true false none =
      Except.ok [Insight.kpiStable "sales" none,
        Insight.summaryLine "Financial Dashboard"] :=
  ⟨by decide, by decide, by decide, by decide⟩

/-- Claim C2, counterexample: `detect_anomalies_zscore` does not return
normally for every existing column whatever its value types — on a textual
column holding `"abc"`, the `astype(float)` conversion raises. -/
theorem detect_raises_on_text_column :
    detect_anomalies_zscore exText "name" 3 =
      Except.error "could not convert string to float: abc" := by
  decide

/-- Claim C3, counterexample: the returned sequence is not strictly
descending by coefficient — with three pairwise perfectly correlated columns
all three pairs carry coefficient 1 (represented by its square), so
consecutive entries tie. -/
theorem correlations_not_strictly_descending_on_ties :
    compute_correlations exTie (3 / 10) =
      [("a", "b", 1), ("a", "c", 1), ("b", "c", 1)] ∧
    ¬ List.Pairwise (fun p q : String × String × ℚ => q.2.2 < p.2.2)
        (compute_correlations exTie (3 / 10)) :=
  ⟨by decide, by decide⟩

/-- Claim C6: on a numeric column whose present values are pairwise equal
(zero variance, or fewer than two present values making the sample deviation
undefined), the anomaly detector returns the empty sequence whatever the
threshold. -/
theorem constant_column_has_no_anomalies (df : DataFrame) (col : String)
    (vs : NumCol) (t : ℚ)
    (hl : df.cols.lookup col = some (ColData.numeric vs))
    (hconst : ∀ x ∈ presentVals vs, ∀ y ∈ presentVals vs, x = y) :
    detect_anomalies_zscore df col t = Except.ok [] := by
  unfold detect_anomalies_zscore
  rw [hl]
  dsimp only [astypeFloat]
  rcases const_colVar vs hconst with hv | hv <;> rw [hv] <;>
    rcases hm : colMean vs with _ | μ <;> simp

/-- Witness for C6 on the constant column `steady`. -/
theorem constant_column_has_no_anomalies_witness :
    detect_anomalies_zscore exConst "steady" 3 = Except.ok [] :=
  constant_column_has_no_anomalies exConst "steady"
    [some 7, some 7, some 7] 3 (by decide) (by decide)

/-- Claim C7: the KPI summarizer emits no message for a column whose name
contains (case-insensitively) a reserved token — every line of its output
speaks about some other column or is the fallback line. -/
theorem excluded_keyword_column_never_summarized (df : DataFrame) (col : String)
    (h : isExcluded col = true) :
    (basic_kpi_insights df).all (fun i => i.kpiCol != some col) = true := by
  rw [List.all_eq_true]
  intro i hi
  unfold basic_kpi_insights at hi
  dsimp only at hi
  split at hi
  · rcases List.mem_singleton.mp hi with rfl
    rfl
  · rcases List.mem_map.mp hi with ⟨⟨c, v⟩, hcf, rfl⟩
    have hcex : isExcluded c = false := by
      have h2 := (List.mem_filter.mp hcf).2
      simpa using h2
    dsimp only
    rw [kpiCol_kpiMessage, bne_iff_ne]
    intro hcc
    rw [Option.some.injEq] at hcc
    rw [hcc, h] at hcex
    cases hcex

/-- Witness for C7: `customer_id` matches the reserved token `id`, and on a
dataset with a variable `customer_id` next to `revenue` the KPI output is
exactly the one `revenue` line. -/
theorem excluded_keyword_column_never_summarized_witness :
    isExcluded "customer_id" = true ∧
    (basic_kpi_insights exKpi).all (fun i => i.kpiCol != some "customer_id") = true ∧
    basic_kpi_insights exKpi =
      [Insight.kpiVerbose "revenue" (some 5000) 15000 (some 1000) (some 9000)] :=
  ⟨by decide,
    excluded_keyword_column_never_summarized exKpi "customer_id" (by decide),
    by decide⟩

/-- Claim C5: every anomaly record returned satisfies `|z| ≥ z_thresh` (in the
squared representation, `absGe r.zsq t`), and a present value whose
standardized score has `|z|` exactly equal to the threshold is included. -/
theorem anomaly_records_meet_threshold_and_boundary_included
    (df : DataFrame) (col : String) (t : ℚ) (l : List AnomalyRecord)
    (h : detect_anomalies_zscore df col t = Except.ok l) :
    l.all (fun r => absGe r.zsq t) = true ∧
    (∀ (vs : NumCol) (μ v : ℚ) (i : ℕ) (x : ℚ),
      df.cols.lookup col = some (ColData.numeric vs) →
      colMean vs = some μ → colVar vs = some v → v ≠ 0 →
      vs.get? i = some (some x) → (x - μ) ^ 2 = t ^ 2 * v →
      (⟨i, x, (x - μ) ^ 2 / v⟩ : AnomalyRecord) ∈ l) := by
  constructor
  · rw [List.all_eq_true]
    intro r hr
    unfold detect_anomalies_zscore at h
    rcases hlk : df.cols.lookup col with _ | cd <;> rw [hlk] at h <;> dsimp only at h
    · simp only [Except.ok.injEq] at h
      subst h
      simp at hr
    · rcases hast : astypeFloat cd with e | vals <;> rw [hast] at h <;> dsimp only at h
      · cases h
      · rcases hm : colMean vals with _ | μ <;> rcases hv : colVar vals with _ | v <;>
          rw [hm, hv] at h <;> dsimp only at h
        · simp only [Except.ok.injEq] at h
          subst h
          simp at hr
        · simp only [Except.ok.injEq] at h
          subst h
          simp at hr
        · simp only [Except.ok.injEq] at h
          subst h
          simp at hr
        · by_cases hv0 : v = 0
          · rw [if_pos hv0] at h
            simp only [Except.ok.injEq] at h
            subst h
            simp at hr
          · rw [if_neg hv0] at h
            simp only [Except.ok.injEq] at h
            subst h
            rcases List.mem_filterMap.mp hr with ⟨⟨j, ox⟩, _, hpf⟩
            rcases ox with _ | x
            · cases hpf
            · dsimp only at hpf
              by_cases hge : absGe ((x - μ) ^ 2 / v) t = true
              · rw [if_pos hge] at hpf
                injection hpf with hpf2
                rw [← hpf2]
                exact hge
              · rw [if_neg hge] at hpf
                cases hpf
  · intro vs μ v i x hl2 hm2 hv2 hv0 hget hx
    have hdet : detect_anomalies_zscore df col t =
        Except.ok (vs.enum.filterMap (fun p =>
          match p.2 with
          | none => none
          | some y =>
            if absGe ((y - μ) ^ 2 / v) t then some ⟨p.1, y, (y - μ) ^ 2 / v⟩
            else none)) := by
      unfold detect_anomalies_zscore
      rw [hl2]
      dsimp only [astypeFloat]
      rw [hm2, hv2]
      dsimp only
      rw [if_neg hv0]
    rw [h] at hdet
    simp only [Except.ok.injEq] at hdet
    subst hdet
    apply List.mem_filterMap.mpr
    refine ⟨(i, some x), ?_, ?_⟩
    · apply List.getElem?_mem (n := i)
      rw [List.getElem?_enum]
      rw [List.get?_eq_getElem?] at hget
      rw [hget]
      rfl
    · have hzsq : (x - μ) ^ 2 / v = t ^ 2 := by
        rw [hx, mul_div_cancel_right₀ _ hv0]
      have habs : absGe (t ^ 2) t = true := by
        unfold absGe
        by_cases ht : t ≤ 0
        · rw [if_pos ht]
        · rw [if_neg ht]
          simp
      dsimp only
      rw [hzsq]
      simp [habs]

/-- Witness for C5 on `exBoundary` at threshold `3/2`: the value `4` has
`|z| = 3/2` exactly and is included. -/
theorem anomaly_records_meet_threshold_and_boundary_included_witness :
    detect_anomalies_zscore exBoundary "v" (3 / 2) =
      Except.ok [⟨3, 4, 9 / 4⟩] ∧
    ([(⟨3, 4, 9 / 4⟩ : AnomalyRecord)].all (fun r => absGe r.zsq (3 / 2)) = true) ∧
    (⟨3, 4, ((4 : ℚ) - 1) ^ 2 / 4⟩ : AnomalyRecord) ∈
      [(⟨3, 4, 9 / 4⟩ : AnomalyRecord)] := by
  refine ⟨by decide, ?_, ?_⟩
  · exact (anomaly_records_meet_threshold_and_boundary_included exBoundary "v" (3 / 2)
      [⟨3, 4, 9 / 4⟩] (by decide)).1
  · exact (anomaly_records_meet_threshold_and_boundary_included exBoundary "v" (3 / 2)
      [⟨3, 4, 9 / 4⟩] (by decide)).2
      [some 0, some 0, some 0, some 4] 1 4 3 4 (by decide) (by decide) (by decide)
      (by decide) (by decide) (by decide)

/-- Claim C3, amended: for `min_corr` in `[0,1]`, every returned pair has
absolute coefficient at least `min_corr` (squared representation:
`min_corr² ≤ vsq`), and the sequence is descending by the coefficient — but
only weakly (non-increasing): ties between equal coefficients are kept in
iteration order by the stable sort, so strict descent fails in general. -/
theorem correlations_filtered_and_sorted (df : DataFrame) (mc : ℚ)
    (h0 : 0 ≤ mc) (h1 : mc ≤ 1) :
    (compute_correlations df mc).all
      (fun p => decide (mc ^ 2 ≤ p.2.2 ∧ 0 ≤ p.2.2)) = true ∧
    List.Pairwise (fun p q : String × String × ℚ => q.2.2 ≤ p.2.2)
      (compute_correlations df mc) := by
  constructor
  · rw [List.all_eq_true]
    intro p hp
    rw [decide_eq_true_eq]
    unfold compute_correlations at hp
    dsimp only at hp
    split at hp
    · simp at hp
    · rw [List.mem_insertionSort] at hp
      rcases List.mem_flatMap.mp hp with ⟨pi, _, hpj⟩
      rcases List.mem_filterMap.mp hpj with ⟨pj, _, hf⟩
      by_cases hij : pj.1 ≤ pi.1
      · rw [if_pos hij] at hf
        cases hf
      · rw [if_neg hij] at hf
        rcases hps : pearsonAbsSq pi.2.2 pj.2.2 with _ | vsq <;> rw [hps] at hf <;>
          dsimp only at hf
        · cases hf
        · have hnn : 0 ≤ vsq := pearsonAbsSq_nonneg _ _ _ hps
          by_cases hge : absGe vsq mc = true
          · rw [if_pos hge] at hf
            injection hf with hf2
            rw [← hf2]
            refine ⟨?_, hnn⟩
            unfold absGe at hge
            by_cases hle : mc ≤ 0
            · have hz : mc = 0 := le_antisymm hle h0
              rw [hz]
              simpa using hnn
            · rw [if_neg hle] at hge
              exact of_decide_eq_true hge
          · rw [if_neg hge] at hf
            cases hf
  · unfold compute_correlations
    dsimp only
    split
    · exact List.Pairwise.nil
    · haveI hT : IsTotal (String × String × ℚ) (fun p q => q.2.2 ≤ p.2.2) :=
        ⟨fun a b => le_total b.2.2 a.2.2⟩
      haveI hR : IsTrans (String × String × ℚ) (fun p q => q.2.2 ≤ p.2.2) :=
        ⟨fun a b c hab hbc => le_trans hbc hab⟩
      exact List.sorted_insertionSort _ _

/-- Witness for the amended C3 on two perfectly correlated columns: the single
pair carries coefficient 1 (squared: 1), passes the `0.3` filter, and the
one-element sequence is sorted. -/
theorem correlations_filtered_and_sorted_witness :
    compute_correlations exCorr (3 / 10) = [("x", "y", 1)] ∧
    (compute_correlations exCorr (3 / 10)).all
      (fun p => decide (((3 : ℚ) / 10) ^ 2 ≤ p.2.2 ∧ 0 ≤ p.2.2)) = true ∧
    List.Pairwise (fun p q : String × String × ℚ => q.2.2 ≤ p.2.2)
      (compute_correlations exCorr (3 / 10)) := by
  refine ⟨by decide, ?_, ?_⟩
  · exact (correlations_filtered_and_sorted exCorr (3 / 10) (by norm_num) (by norm_num)).1
  · exact (correlations_filtered_and_sorted exCorr (3 / 10) (by norm_num) (by norm_num)).2

/-- Claim C2, amended: the detector returns normally for an absent column
(empty result) and for every existing numeric column, and — with distinct
column names, as for every well-formed dataset — the whole composer returns
normally whatever the dataset holds; but an existing textual column with a
value not parseable as a float makes the detector's conversion raise (see the
counterexample). -/
theorem detect_total_on_absent_and_numeric_columns
    (df : DataFrame) (col : String) (t : ℚ) (name : String) (inc u : Bool)
    (cl : Option (String → Except String String)) :
    (df.cols.lookup col = none → detect_anomalies_zscore df col t = Except.ok []) ∧
    (∀ vs, df.cols.lookup col = some (ColData.numeric vs) →
      (detect_anomalies_zscore df col t).isOk = true) ∧
    ((df.cols.map Prod.fst).Nodup →
      (generate_dashboard_insights df name inc u cl).isOk = true) := by
  refine ⟨?_, ?_, ?_⟩
  · intro h
    unfold detect_anomalies_zscore
    rw [h]
  · intro vs h
    rcases detect_numeric_ok df col vs t h with ⟨r, hr⟩
    rw [hr]
    rfl
  · intro hnd
    have hA := anomalySection_eq_ok df hnd
    unfold generate_dashboard_insights
    rw [hA]
    dsimp only
    cases u
    · rfl
    · rcases cl with _ | f
      · rfl
      · dsimp only
        split <;> first | rfl | (split <;> rfl)

/-- Witness for the amended C2: an absent column gives the empty result, the
numeric `sales` column is processed without an exception, and the composer
returns normally on the same dataset. -/
theorem detect_total_on_absent_and_numeric_columns_witness :
    detect_anomalies_zscore exSmall "missing" 3 = Except.ok [] ∧
    (detect_anomalies_zscore exSmall "sales" 3).isOk = true ∧
    (generate_dashboard_insights exSmall "D" true false none).isOk = true := by
  refine ⟨?_, ?_, ?_⟩
  · exact (detect_total_on_absent_and_numeric_columns exSmall "missing" 3 "D" true
      false none).1 (by decide)
  · exact (detect_total_on_absent_and_numeric_columns exSmall "sales" 3 "D" true
      false none).2.1 [some 1, some 2] (by decide)
  · exact (detect_total_on_absent_and_numeric_columns exSmall "sales" 3 "D" true
      false none).2.2 (by decide)

/-- Claim C4: with the rewrite callback enabled, the composer hands the
callback the single prompt built from all assembled insight lines (the
callback is applied exactly once, to `mkPrompt base`); on success the whole
result is replaced by the one returned line, on failure the original lines
are kept with exactly one diagnostic line appended, and no exception
propagates (the result stays `Except.ok`). -/
theorem composer_rewrite_replaces_or_appends_diagnostic
    (df : DataFrame) (name : String) (inc : Bool)
    (f : String → Except String String) (base : List Insight)
    (hbase : generate_dashboard_insights df name inc false none = Except.ok base) :
    (∀ s, f (mkPrompt base) = Except.ok s →
      generate_dashboard_insights df name inc true (some f) =
        Except.ok [Insight.rewritten s]) ∧
    (∀ e, f (mkPrompt base) = Except.error e →
      generate_dashboard_insights df name inc true (some f) =
        Except.ok (base ++ [Insight.llmFailed e])) := by
  unfold generate_dashboard_insights at hbase ⊢
  dsimp only at hbase ⊢
  rcases hA : anomalySection df with e | lines <;> rw [hA] at hbase <;>
    dsimp only at hbase ⊢
  · exact Except.noConfusion hbase
  · simp only [Bool.false_eq_true, if_false, Except.ok.injEq] at hbase
    subst hbase
    constructor
    · intro s hf
      rw [hf]
      rfl
    · intro e hf
      rw [hf]
      rfl

/-- Witness for C4 with a succeeding and a failing callback on `exSmall`. -/
theorem composer_rewrite_replaces_or_appends_diagnostic_witness :
    generate_dashboard_insights exSmall "D" true true
        (some (fun _ => Except.ok "Narrative")) =
      Except.ok [Insight.rewritten "Narrative"] ∧
    generate_dashboard_insights exSmall "D" true true
        (some (fun _ => Except.error "boom")) =
      Except.ok
        ([Insight.kpiModerate "sales" (some (3 / 2)) (some 1) (some 2),
          Insight.summaryLine "D"] ++ [Insight.llmFailed "boom"]) := by
  constructor
  · exact (composer_rewrite_replaces_or_appends_diagnostic exSmall "D" true
      (fun _ => Except.ok "Narrative")
      [Insight.kpiModerate "sales" (some (3 / 2)) (some 1) (some 2),
        Insight.summaryLine "D"] (by decide)).1 "Narrative" rfl
  · exact (composer_rewrite_replaces_or_appends_diagnostic exSmall "D" true
      (fun _ => Except.error "boom")
      [Insight.kpiModerate "sales" (some (3 / 2)) (some 1) (some 2),
        Insight.summaryLine "D"] (by decide)).2 "boom" rfl

/-- Claim C8: without a rewrite callback (either `use_llm` disabled or no
client), the composer returns a non-empty sequence whose last element is the
single closing summary line naming the dashboard, and on a dataset with zero
numeric columns the sequence contains the KPI fallback line. -/
theorem composer_ends_with_summary_line (df : DataFrame) (name : String)
    (inc u : Bool) (cl : Option (String → Except String String))
    (hnd : (df.cols.map Prod.fst).Nodup) (hnl : u = false ∨ cl = none) :
    generate_dashboard_insights df name inc u cl =
      Except.ok (composerLines df name inc) ∧
    composerLines df name inc ≠ [] ∧
    (composerLines df name inc).getLast? = some (Insight.summaryLine name) ∧
    (selectNumeric df = [] → Insight.kpiFallback ∈ composerLines df name inc) := by
  have hA := anomalySection_eq_ok df hnd
  refine ⟨?_, ?_, ?_, ?_⟩
  · unfold generate_dashboard_insights
    rw [hA]
    dsimp only
    rcases hnl with rfl | rfl
    · rfl
    · cases u <;> rfl
  · unfold composerLines
    simp
  · unfold composerLines
    simp [List.getLast?_append]
  · intro h0
    have hfb : basic_kpi_insights df = [Insight.kpiFallback] := by
      unfold basic_kpi_insights
      rw [h0]
      rfl
    unfold composerLines
    rw [hfb]
    simp

/-- Witness for C8 on the empty dataset: the composer returns exactly the
fallback line followed by the closing summary line. -/
theorem composer_ends_with_summary_line_witness :
    generate_dashboard_insights exEmpty "Sales Dashboard" true false none =
      Except.ok (composerLines exEmpty "Sales Dashboard" true) ∧
    composerLines exEmpty "Sales Dashboard" true ≠ [] ∧
    (composerLines exEmpty "Sales Dashboard" true).getLast? =
      some (Insight.summaryLine "Sales Dashboard") ∧
    Insight.kpiFallback ∈ composerLines exEmpty "Sales Dashboard" true ∧
    composerLines exEmpty "Sales Dashboard" true =
      [Insight.kpiFallback, Insight.summaryLine "Sales Dashboard"] := by
  obtain ⟨h1, h2, h3, h4⟩ := composer_ends_with_summary_line exEmpty
    "Sales Dashboard" true false none (by decide) (Or.inl rfl)
  exact ⟨h1, h2, h3, h4 (by decide), by decide⟩

/-- Claim C9: no operation of the core mutates the dataset.  Each operation is
embedded in state-passing style over the dataset (every access the source
performs on `df` is a read; the module contains no in-place pandas call), and
running any of the four operations returns the dataset state unchanged,
together with the value of the corresponding pure function. -/
theorem core_operations_do_not_mutate_dataset (df : DataFrame) (mc t : ℚ)
    (c name : String) (inc u : Bool)
    (cl : Option (String → Except String String)) :
    basic_kpi_insightsS.run df = (basic_kpi_insights df, df) ∧
    (compute_correlationsS mc).run df = (compute_correlations df mc, df) ∧
    (detect_anomalies_zscoreS c t).run df = (detect_anomalies_zscore df c t, df) ∧
    (generate_dashboard_insightsS name inc u cl).run df =
      (generate_dashboard_insights df name inc u cl, df) := by
  refine ⟨rfl, rfl, rfl, ?_⟩
  cases inc <;> cases u <;> rcases cl with _ | f <;>
    simp only [generate_dashboard_insightsS, generate_dashboard_insights,
      basic_kpi_insightsS, compute_correlationsS, StateT.run, bind, StateT.bind,
      get, getThe, MonadStateOf.get, StateT.get, pure, StateT.pure, Id.run] <;>
    (try cases hA : anomalySection df) <;>
    simp [hA, StateT.bind, StateT.pure, StateT.get]

/-- Claim C10: the composer's analysis thresholds are fixed at the defaults
and not configurable through its interface — for every argument list, the
composer equals the threshold-parameterized contract instantiated at
`min_corr = 0.3` and `z_threshold = 3.0`, and no composer argument can alter
that. -/
theorem composer_thresholds_fixed_at_defaults (df : DataFrame) (name : String)
    (inc u : Bool) (cl : Option (String → Except String String)) :
    generate_dashboard_insights df name inc u cl =
      generate_insights_param df name inc (3 / 10) 3 u cl ∧
    default_min_corr = 3 / 10 ∧ default_z_thresh = 3 := by
  refine ⟨?_, rfl, rfl⟩
  cases inc <;> cases u <;> rcases cl with _ | f <;>
    simp only [generate_dashboard_insights, generate_insights_param] <;>
    cases hA : anomalySection df <;>
    (try rw [show anomalySection_param df 3 = anomalySection df from rfl]) <;>
    simp only [hA] <;>
    rfl

end Proofs
